import Mathlib

/-!
# Photo2Map — verification of the spec against `src/main.py`

Shallow embedding of the Photo2Map pipeline (folder scan → EXIF extraction →
coordinate normalisation → table build → colour mapping → map rendering) and
of the GUI upload handler.

Modelling conventions:
* Python floats are modelled as `ℚ` (the claims are about exact arithmetic
  formulas, not rounding).
* A Python exception is an `Except PyError` value; the exception classes that
  the program distinguishes get their own constructors.
* `print` diagnostics are collected in a `List String` log threaded through
  the functions that print.
* A folder is the list of `(path-string, file content)` pairs that the glob
  `folder.rglob(image_extension)` enumerates, in enumeration order.
* Library behaviour that the source delegates is modelled by its documented
  semantics: `pandas.to_datetime(column, format=...)` raises on a string not
  matching the format and maps `None` to `NaT`; `DataFrame.sort_values` with
  default `na_position` places all null keys after all non-null keys, the
  non-null keys ascending; an empty dict-of-dicts produces a `DataFrame` with
  no columns, so attribute access `df.timestamp` raises `AttributeError`;
  `np.linspace(0, 1, num=n)` is `[i/(n-1) for i in range n]` (`[0]` for
  `n = 1`, empty for `n = 0`).
-/

deriving instance DecidableEq for Except

/-- Python exception classes the program can raise or catch.
`unboundLocalError` models using a local variable before assignment
(a subclass of `NameError`, caught by none of the handlers in the source). -/
inductive PyError where
  | keyError
  | attributeError
  | unboundLocalError
  | oserror
  | exifParseError
  | valueError
  deriving DecidableEq, Repr, Fintype

/-- The optional named fields exposed by the `exif.Image` metadata handle.
A `none` field models a tag whose access raises `KeyError`/`AttributeError`. -/
structure ExifData where
  gps_latitude : Option (ℚ × ℚ × ℚ)
  gps_latitude_ref : Option String
  gps_longitude : Option (ℚ × ℚ × ℚ)
  gps_longitude_ref : Option String
  gps_altitude : Option ℚ
  datetime : Option String
  deriving DecidableEq, Repr

/-- What a file on disk can be, as far as `read_exif_data` is concerned:
unreadable (`open` raises `OSError`), readable but not parseable by the
`exif` library, or carrying parsed EXIF metadata. -/
inductive FileContent where
  | unreadable
  | notExif
  | exif (d : ExifData)
  deriving DecidableEq, Repr

/-- `read_exif_data` (main.py lines 14-17): opens the file and parses it with
`exif.Image`. No error handling of its own — failures propagate. -/
def read_exif_data : FileContent → Except PyError ExifData
  | .unreadable => .error .oserror
  | .notExif => .error .exifParseError
  | .exif d => .ok d

/-- `deg + min/60 + sec/3600` for a `(degrees, minutes, seconds)` tuple. -/
def dmsSum (coords : ℚ × ℚ × ℚ) : ℚ :=
  coords.1 + coords.2.1 / 60 + coords.2.2 / 3600

/-- Python `str.upper()` as a character list (ASCII case mapping, which is
all the hemisphere comparison needs). -/
def pyUpper (s : String) : List Char := s.toList.map Char.toUpper

/-- `convert_coords_to_decimal` (main.py lines 20-30).  For a reference
outside N/S/E/W (case-insensitive) the source prints a diagnostic but then
still executes `return mul * (...)` with `mul` never assigned, which raises
`UnboundLocalError`.  Result: printed log lines paired with the outcome. -/
def convert_coords_to_decimal (coords : ℚ × ℚ × ℚ) (ref : String) :
    List String × Except PyError ℚ :=
  if pyUpper ref = ['W'] ∨ pyUpper ref = ['S'] then
    ([], .ok ((-1) * dmsSum coords))
  else if pyUpper ref = ['E'] ∨ pyUpper ref = ['N'] then
    ([], .ok (1 * dmsSum coords))
  else
    (["Incorrect hemisphere reference. Expecting one of N, S, E or W, got "
        ++ ref ++ " instead."],
     .error .unboundLocalError)

/-- Access of an optional EXIF field by subscript/attribute: raises for an
absent field. -/
def getField {α : Type} : Option α → Except PyError α
  | none => .error .keyError
  | some a => .ok a

/-- Sequencing for logged fallible computations (Python statements executed
in order, each able to print and to raise). -/
def logBind {α β : Type} (x : List String × Except PyError α)
    (f : α → List String × Except PyError β) : List String × Except PyError β :=
  match x with
  | (log, .error e) => (log, .error e)
  | (log, .ok a) =>
    match f a with
    | (log2, r) => (log ++ log2, r)

/-- Lift an unlogged fallible step. -/
def noLog {α : Type} (x : Except PyError α) : List String × Except PyError α :=
  ([], x)

/-- The body of the `try` block of `get_decimal_coord_from_exif`
(main.py lines 34-44), in Python evaluation order: latitude tuple, latitude
ref, convert; longitude tuple, longitude ref, convert; altitude. -/
def coordBody (d : ExifData) : List String × Except PyError (ℚ × ℚ × ℚ) :=
  logBind (noLog (getField d.gps_latitude)) fun latRaw =>
  logBind (noLog (getField d.gps_latitude_ref)) fun latRef =>
  logBind (convert_coords_to_decimal latRaw latRef) fun lat =>
  logBind (noLog (getField d.gps_longitude)) fun lonRaw =>
  logBind (noLog (getField d.gps_longitude_ref)) fun lonRef =>
  logBind (convert_coords_to_decimal lonRaw lonRef) fun lon =>
  logBind (noLog (getField d.gps_altitude)) fun alt =>
  ([], .ok (lat, lon, alt))

/-- `get_decimal_coord_from_exif` (main.py lines 33-47): runs `coordBody`
under `except (AttributeError, KeyError)`, which prints a diagnostic and
re-raises.  Any other exception (notably `UnboundLocalError` from an invalid
hemisphere reference) is not caught and propagates silently. -/
def get_decimal_coord_from_exif (d : ExifData) :
    List String × Except PyError (ℚ × ℚ × ℚ) :=
  match coordBody d with
  | (log, .ok v) => (log, .ok v)
  | (log, .error e) =>
    if e = .keyError ∨ e = .attributeError then
      (log ++ ["Image does not contain spatial data or data is invalid."],
       .error e)
    else
      (log, .error e)

/-- One record of the scanner's `coord_dict` (an inner dict of main.py
lines 61-70). -/
structure PhotoRecord where
  latitude : ℚ
  longitude : ℚ
  altitude : ℚ
  filepath : String
  timestamp : Option String
  deriving DecidableEq, Repr

/-- `exif = [read_exif_data(f) for f in source_files]` (main.py line 53):
a list comprehension runs outside any handler, so the first failing file
aborts the whole call. -/
def sequenceExif : List (Except PyError ExifData) → Except PyError (List ExifData)
  | [] => .ok []
  | .error e :: _ => .error e
  | .ok d :: rest =>
    match sequenceExif rest with
    | .error e => .error e
    | .ok ds => .ok (d :: ds)

/-- The per-file loop of `read_spatial_data_from_folder` (main.py
lines 55-71).  `except (AttributeError, KeyError): continue` skips the file;
any other exception escapes the function.  A missing `datetime` attribute is
caught separately: the record is kept with `timestamp = None` and a
diagnostic is printed. -/
def scanLoop : List (String × ExifData) → List String × Except PyError (List PhotoRecord)
  | [] => ([], .ok [])
  | (name, d) :: rest =>
    match get_decimal_coord_from_exif d with
    | (log, .error e) =>
      if e = .keyError ∨ e = .attributeError then
        match scanLoop rest with
        | (logR, r) => (log ++ logR, r)
      else
        (log, .error e)
    | (log, .ok (lat, lon, alt)) =>
      let ts : List String × Option String :=
        match d.datetime with
        | some t => ([], some t)
        | none =>
          (["Photo " ++ name ++ " does not contain datetime information."], none)
      match scanLoop rest with
      | (logR, .error e) => (log ++ ts.1 ++ logR, .error e)
      | (logR, .ok recs) =>
        (log ++ ts.1 ++ logR,
         .ok ({ latitude := lat, longitude := lon, altitude := alt,
                filepath := name, timestamp := ts.2 } :: recs))

/-- `read_spatial_data_from_folder` (main.py lines 50-72).  Input: the files
the glob enumerates, in order, with their contents.  Phase 1 reads EXIF from
every file (line 53, unprotected); phase 2 is the per-file loop. -/
def read_spatial_data_from_folder (files : List (String × FileContent)) :
    List String × Except PyError (List PhotoRecord) :=
  match sequenceExif (files.map fun p => read_exif_data p.2) with
  | .error e => ([], .error e)
  | .ok exifs => scanLoop ((files.map Prod.fst).zip exifs)

/-- The record the per-file loop builds for one file, or `none` when the
coordinate extraction fails with `KeyError`/`AttributeError` and the file is
skipped.  (Used to state what the loop computes file by file.) -/
def recordOf (p : String × ExifData) : Option PhotoRecord :=
  match get_decimal_coord_from_exif p.2 with
  | (_, .ok (lat, lon, alt)) =>
    some { latitude := lat, longitude := lon, altitude := alt,
           filepath := p.1, timestamp := p.2.datetime }
  | (_, .error _) => none

/-- Value of two ASCII digit characters, `none` if either is not a digit. -/
def digit2 (a b : Char) : Option ℕ :=
  if a.isDigit ∧ b.isDigit then some ((a.toNat - 48) * 10 + (b.toNat - 48))
  else none

/-- Value of four ASCII digit characters, `none` if any is not a digit. -/
def digit4 (a b c d : Char) : Option ℕ :=
  if a.isDigit ∧ b.isDigit ∧ c.isDigit ∧ d.isDigit then
    some ((((a.toNat - 48) * 10 + (b.toNat - 48)) * 10 + (c.toNat - 48)) * 10
          + (d.toNat - 48))
  else none

/-- Strict parse of one timestamp string against the exact format
`%Y:%m:%d %H:%M:%S` used at main.py line 85, as `pandas.to_datetime` does for
one element.  A successful parse is encoded as the lexicographic key
`((((year*100+month)*100+day)*100+hour)*100+minute)*100+second`, which orders
exactly like the parsed date-time.  Any string not of the shape
`YYYY:MM:DD HH:MM:SS` with in-range fields yields `none` (the library raises
`ValueError`; finer calendar checks such as month lengths are abstracted). -/
def parseTimestamp (s : String) : Option ℕ :=
  match s.toList with
  | [y1, y2, y3, y4, c1, o1, o2, c2, d1, d2, sp, h1, h2, c3, i1, i2, c4, e1, e2] =>
    if c1 = ':' ∧ c2 = ':' ∧ sp = ' ' ∧ c3 = ':' ∧ c4 = ':' then
      match digit4 y1 y2 y3 y4, digit2 o1 o2, digit2 d1 d2,
            digit2 h1 h2, digit2 i1 i2, digit2 e1 e2 with
      | some y, some mo, some dd, some hh, some mi, some se =>
        if 1 ≤ mo ∧ mo ≤ 12 ∧ 1 ≤ dd ∧ dd ≤ 31 ∧ hh ≤ 23 ∧ mi ≤ 59 ∧ se ≤ 59 then
          some (((((y * 100 + mo) * 100 + dd) * 100 + hh) * 100 + mi) * 100 + se)
        else none
      | _, _, _, _, _, _ => none
    else none
  | _ => none

/-- One row of the DataFrame after `df['timestamp'] = pd.to_datetime(...)`:
the raw timestamp string replaced by its parsed key, `NaT` as `none`. -/
structure ParsedRow where
  latitude : ℚ
  longitude : ℚ
  altitude : ℚ
  filepath : String
  timestamp : Option ℕ
  deriving DecidableEq, Repr

/-- `pd.to_datetime(df.timestamp, format="%Y:%m:%d %H:%M:%S")` over all rows
(main.py line 85): `None` becomes `NaT`; a string that fails the format
raises `ValueError` (the default `errors="raise"`), aborting the call. -/
def parseRows : List PhotoRecord → Except PyError (List ParsedRow)
  | [] => .ok []
  | r :: rest =>
    let pt : Except PyError (Option ℕ) :=
      match r.timestamp with
      | none => .ok none
      | some s =>
        match parseTimestamp s with
        | none => .error .valueError
        | some t => .ok (some t)
    match pt, parseRows rest with
    | .error e, _ => .error e
    | .ok _, .error e => .error e
    | .ok t, .ok rows =>
      .ok ({ latitude := r.latitude, longitude := r.longitude,
             altitude := r.altitude, filepath := r.filepath,
             timestamp := t } :: rows)

/-- Sort key of a row with a non-null timestamp. -/
def tsKey (r : ParsedRow) : ℕ := r.timestamp.getD 0

/-- Insert a row into a timestamp-ascending list. -/
def insertAsc (r : ParsedRow) : List ParsedRow → List ParsedRow
  | [] => [r]
  | x :: xs => if tsKey r ≤ tsKey x then r :: x :: xs else x :: insertAsc r xs

/-- Ascending sort of rows by timestamp key. -/
def sortAsc : List ParsedRow → List ParsedRow
  | [] => []
  | x :: xs => insertAsc x (sortAsc xs)

/-- `df.sort_values('timestamp')` (main.py line 86): ascending by timestamp
with the default `na_position="last"` — all `NaT` rows are placed after all
non-null rows, the non-null rows in ascending key order. -/
def sortByTimestamp (rows : List ParsedRow) : List ParsedRow :=
  sortAsc (rows.filter fun r => r.timestamp.isSome)
    ++ rows.filter fun r => !r.timestamp.isSome

/-- The Table Builder (main.py lines 84-86): build the DataFrame from the
scanner's dict, parse the timestamp column, sort.  When the dict is empty the
transposed DataFrame has no columns, so the attribute access `df.timestamp`
raises `AttributeError`. -/
def build_table (records : List PhotoRecord) : Except PyError (List ParsedRow) :=
  if records.isEmpty then .error .attributeError
  else
    match parseRows records with
    | .error e => .error e
    | .ok rows => .ok (sortByTimestamp rows)

/-- `np.linspace(0, 1, num=n)` (main.py line 91): `i/(n-1)` for `i < n`.
For `n = 1` numpy yields `[0]`, matched here because `0/0 = 0` in `ℚ`;
for `n = 0` the list is empty. -/
def linspace01 (n : ℕ) : List ℚ :=
  (List.range n).map fun (i : ℕ) => (i : ℚ) / ((n : ℚ) - 1)

/-- `Series.max()` over a non-empty numeric column. -/
def listMax : List ℚ → ℚ
  | [] => 0
  | x :: xs => xs.foldl max x

/-- `Series.min()` over a non-empty numeric column. -/
def listMin : List ℚ → ℚ
  | [] => 0
  | x :: xs => xs.foldl min x

/-- One `folium.CircleMarker` (main.py lines 111-117): position, the colour
scalar (its fill and stroke colours are the fixed plasma colormap applied to
this scalar, so the scalar determines the hex colour), and the tooltip data. -/
structure Marker where
  lat : ℚ
  lon : ℚ
  colorScalar : ℚ
  timestamp : Option ℕ
  filepath : String
  deriving DecidableEq, Repr

/-- The rendered document's content that the claims concern: the markers in
placement order and the two corners passed to `m.fit_bounds([sw, ne])`. -/
structure MapOutput where
  markers : List Marker
  bounds : (ℚ × ℚ) × (ℚ × ℚ)
  deriving DecidableEq, Repr

/-- The marker loop (main.py lines 99-117): `zip` of the sorted rows with
their colour scalars. -/
def mkMarkers (rows : List ParsedRow) (scalars : List ℚ) : List Marker :=
  List.zipWith
    (fun r c =>
      { lat := r.latitude, lon := r.longitude, colorScalar := c,
        timestamp := r.timestamp, filepath := r.filepath })
    rows scalars

/-- `generate_map` (main.py lines 79-124) on the contents of the `images`
folder: scan, build the table, assign `np.linspace(0, 1, num=N)` colour
scalars, compute `sw = (lat.max()+3, lon.min()-3)` and
`ne = (lat.min()-3, lon.max()+3)`, place markers, fit bounds to `[sw, ne]`. -/
def generate_map (files : List (String × FileContent)) :
    List String × Except PyError MapOutput :=
  match read_spatial_data_from_folder files with
  | (log, .error e) => (log, .error e)
  | (log, .ok records) =>
    match build_table records with
    | .error e => (log, .error e)
    | .ok rows =>
      let scalars := linspace01 rows.length
      let lats := rows.map ParsedRow.latitude
      let lons := rows.map ParsedRow.longitude
      let sw := (listMax lats + 3, listMin lons - 3)
      let ne := (listMin lats - 3, listMax lons + 3)
      (log, .ok { markers := mkMarkers rows scalars, bounds := (sw, ne) })

/-- Observable effects of the upload handler. -/
inductive UploadEffect where
  | fileMoved (src dst : String)
  | mapRegenerated
  | errorDialog (title msg : String)
  deriving DecidableEq, Repr

/-- `Path(file_path).name`. -/
def baseName (p : String) : String := (p.splitOn "/").getLastD p

/-- `upload_image` (main.py lines 132-140).  `askopenfilename` returns the
chosen path or the empty string on cancel; `if file_path:` guards everything.
On a non-empty selection the file is moved into `images/`, then the map is
regenerated; any exception during regeneration is caught and an error dialog
is shown (the move is not rolled back). -/
def upload_image (file_path : String) (content : FileContent)
    (folder : List (String × FileContent)) :
    List (String × FileContent) × List UploadEffect :=
  if file_path = "" then (folder, [])
  else
    let dest := "images/" ++ baseName file_path
    let folder2 := folder ++ [(dest, content)]
    match (generate_map folder2).2 with
    | .ok _ => (folder2, [.fileMoved file_path dest, .mapRegenerated])
    | .error _ =>
      (folder2,
       [.fileMoved file_path dest,
        .errorDialog "Upload Error"
          "An error occurred during upload. Please ensure you are uploading a valid .jpg image."])

/-! ## Test fixtures: concrete EXIF handles used by witnesses -/

/-- A photo with complete, valid metadata. -/
def goodExif : ExifData :=
  { gps_latitude := some (1, 2, 3), gps_latitude_ref := some "N",
    gps_longitude := some (4, 5, 6), gps_longitude_ref := some "E",
    gps_altitude := some 7, datetime := some "2020:01:02 03:04:05" }

/-- A photo with no GPS tags at all. -/
def noGpsExif : ExifData :=
  { gps_latitude := none, gps_latitude_ref := none,
    gps_longitude := none, gps_longitude_ref := none,
    gps_altitude := none, datetime := some "2021:01:02 03:04:05" }

/-- A photo with valid coordinates and references but no altitude tag. -/
def noAltExif : ExifData :=
  { gps_latitude := some (1, 2, 3), gps_latitude_ref := some "N",
    gps_longitude := some (4, 5, 6), gps_longitude_ref := some "E",
    gps_altitude := none, datetime := some "2020:01:02 03:04:05" }

/-- A photo whose latitude hemisphere reference is the invalid letter Q. -/
def badRefExif : ExifData :=
  { gps_latitude := some (1, 2, 3), gps_latitude_ref := some "Q",
    gps_longitude := some (4, 5, 6), gps_longitude_ref := some "E",
    gps_altitude := some 7, datetime := some "2020:01:02 03:04:05" }

/-- A photo with valid GPS but no datetime tag. -/
def noTsExif : ExifData :=
  { gps_latitude := some (1, 2, 3), gps_latitude_ref := some "N",
    gps_longitude := some (4, 5, 6), gps_longitude_ref := some "E",
    gps_altitude := some 7, datetime := none }

/-- A photo with valid GPS whose datetime uses dashes instead of colons, so
it does not match the exact format `%Y:%m:%d %H:%M:%S`. -/
def badTsExif : ExifData :=
  { gps_latitude := some (1, 2, 3), gps_latitude_ref := some "N",
    gps_longitude := some (4, 5, 6), gps_longitude_ref := some "E",
    gps_altitude := some 7, datetime := some "2020-01-02 03:04:05" }

/-! ## Claim theorems -/

/-- C4: for every (degrees, minutes, seconds) tuple and hemisphere reference
in N/E (case-insensitive), `convert_coords_to_decimal` returns
`deg + min/60 + sec/3600`; for S/W (case-insensitive) it returns the
negation of that same magnitude. -/
theorem C4_sign_formula (d m s : ℚ) (ref : String) :
    (pyUpper ref = ['N'] ∨ pyUpper ref = ['E'] →
      convert_coords_to_decimal (d, m, s) ref
        = ([], .ok (d + m / 60 + s / 3600))) ∧
    (pyUpper ref = ['S'] ∨ pyUpper ref = ['W'] →
      convert_coords_to_decimal (d, m, s) ref
        = ([], .ok (-(d + m / 60 + s / 3600)))) := by
  constructor
  · rintro (h | h) <;>
    · have h1 : ¬(pyUpper ref = ['W'] ∨ pyUpper ref = ['S']) := by rw [h]; decide
      have h2 : pyUpper ref = ['E'] ∨ pyUpper ref = ['N'] := by rw [h]; decide
      simp [convert_coords_to_decimal, h1, h2, dmsSum]
  · rintro (h | h) <;>
    · have h1 : pyUpper ref = ['W'] ∨ pyUpper ref = ['S'] := by rw [h]; decide
      simp [convert_coords_to_decimal, h1, dmsSum]

/-- Witness for C4 at the lower-case references n and w. -/
theorem C4_witness :
    convert_coords_to_decimal (10, 30, 36) "n"
      = ([], .ok (10 + 30 / 60 + 36 / 3600)) ∧
    convert_coords_to_decimal (10, 30, 36) "w"
      = ([], .ok (-(10 + 30 / 60 + 36 / 3600))) :=
  ⟨(C4_sign_formula 10 30 36 "n").1 (Or.inl (by decide)),
   (C4_sign_formula 10 30 36 "w").2 (Or.inr (by decide))⟩

/-- C2 (code bug evaluation): a folder containing a photo whose latitude
reference is Q followed by a fully valid photo.  The invalid reference is
reported, but the subsequent `return mul * (...)` raises `UnboundLocalError`,
which no handler catches: the whole scan aborts and the valid photo b yields
no record, instead of the bad file being skipped and the scan continuing. -/
theorem C2_invalid_ref_aborts_scan :
    read_spatial_data_from_folder
        [("a", .exif badRefExif), ("b", .exif goodExif)]
      = (["Incorrect hemisphere reference. Expecting one of N, S, E or W, got Q instead."],
         .error .unboundLocalError) := by decide

/-- C10: when the file-selection dialog returns an empty selection, the
upload handler performs no move, no pipeline re-run, and shows no dialog:
the folder is unchanged and the effect list is empty. -/
theorem C10_cancel_is_noop (content : FileContent)
    (folder : List (String × FileContent)) :
    upload_image "" content folder = (folder, []) := by
  simp [upload_image]

/-- The observable marker data of one pipeline run: for a successful run the
list of (latitude, longitude, colour scalar) per marker in placement order
(the hex colour is the fixed plasma colormap applied to the scalar, so the
scalar determines the colour); `none` for an aborted run. -/
def markerSignature (files : List (String × FileContent)) :
    Option (List (ℚ × ℚ × ℚ)) :=
  match (generate_map files).2 with
  | .ok out => some (out.markers.map fun m => (m.lat, m.lon, m.colorScalar))
  | .error _ => none

/-- C9: the pipeline is deterministic in the folder contents — two runs over
equal immutable folder contents produce identical marker coordinates and
colour scalars (hence identical colours).  In this embedding the whole run
is a pure function of the enumerated files; no other input exists. -/
theorem C9_deterministic (files1 files2 : List (String × FileContent))
    (h : files1 = files2) :
    markerSignature files1 = markerSignature files2 ∧
    (generate_map files1).2 = (generate_map files2).2 := by
  subst h; exact ⟨rfl, rfl⟩

/-- Witness for C9: two runs over the same one-photo folder. -/
theorem C9_witness :
    markerSignature [("a", .exif goodExif)]
      = markerSignature [("a", .exif goodExif)] ∧
    (generate_map [("a", .exif goodExif)]).2
      = (generate_map [("a", .exif goodExif)]).2 :=
  C9_deterministic _ _ rfl

/-- Phase 1 of the scanner on files that all parse: every EXIF read
succeeds and the parsed handles come back in order. -/
theorem sequenceExif_ok_map {α : Type} (g : α → ExifData) (l : List α) :
    sequenceExif (l.map fun a => Except.ok (g a)) = Except.ok (l.map g) := by
  induction l with
  | nil => rfl
  | cons x xs ih => simp [sequenceExif, ih]

/-- Phase 1 of the scanner aborts at the first failing EXIF read. -/
theorem sequenceExif_error (l₁ l₂ : List (Except PyError ExifData)) (e : PyError)
    (h : ∀ x ∈ l₁, ∃ d, x = Except.ok d) :
    sequenceExif (l₁ ++ Except.error e :: l₂) = Except.error e := by
  induction l₁ with
  | nil => rfl
  | cons x xs ih =>
    obtain ⟨d, rfl⟩ := h x (by simp)
    have hr := ih (fun y hy => h y (by simp [hy]))
    simp [sequenceExif, hr]

/-- The per-file loop, when every file's extraction either succeeds or fails
with `KeyError`/`AttributeError`, skips exactly the failing files and builds
`recordOf` for the others — the skip-and-continue behaviour. -/
theorem scanLoop_ok (l : List (String × ExifData))
    (h : ∀ p ∈ l, ∀ e, (get_decimal_coord_from_exif p.2).2 = Except.error e →
        e = PyError.keyError ∨ e = PyError.attributeError) :
    ∃ log, scanLoop l = (log, Except.ok (l.filterMap recordOf)) := by
  induction l with
  | nil => exact ⟨[], rfl⟩
  | cons p rest ih =>
    obtain ⟨logR, hR⟩ := ih (fun q hq => h q (List.mem_cons_of_mem _ hq))
    obtain ⟨name, d⟩ := p
    rcases hg : get_decimal_coord_from_exif d with ⟨log, r⟩
    cases r with
    | error e =>
      have he := h (name, d) (List.mem_cons_self _ _) e (by rw [hg])
      refine ⟨log ++ logR, ?_⟩
      simp [scanLoop, hg, he, hR, recordOf]
    | ok v =>
      obtain ⟨lat, lon, alt⟩ := v
      cases hd : d.datetime with
      | some t =>
        refine ⟨log ++ [] ++ logR, ?_⟩
        simp [scanLoop, hg, hd, hR, recordOf]
      | none =>
        refine ⟨log ++ ["Photo " ++ name ++ " does not contain datetime information."] ++ logR, ?_⟩
        simp [scanLoop, hg, hd, hR, recordOf]

/-- C1 counterexample: a folder holding a fully valid photo a and an
unreadable file b.  The claim says b is skipped and a record for a is still
produced; in fact the unprotected EXIF-reading comprehension raises
`OSError`, the whole scan aborts, and no record is produced at all. -/
theorem C1_counterexample :
    read_spatial_data_from_folder [("a", .exif goodExif), ("b", .unreadable)]
      = ([], Except.error PyError.oserror) := by decide

/-- C1 amended: per-file failures are local only at the metadata level —
when every file is readable and parseable, files whose extraction fails with
`KeyError`/`AttributeError` (missing or invalid GPS fields) are skipped and
records for all other valid files are produced; but a file that cannot be
opened or parsed fails the EXIF-reading phase, which runs before any per-file
error handling, and aborts the whole scan with no records. -/
theorem C1_amended :
    (∀ (files : List (String × ExifData)),
      (∀ p ∈ files, ∀ e, (get_decimal_coord_from_exif p.2).2 = Except.error e →
          e = PyError.keyError ∨ e = PyError.attributeError) →
      ∃ log,
        read_spatial_data_from_folder (files.map fun p => (p.1, FileContent.exif p.2))
          = (log, Except.ok (files.filterMap recordOf))) ∧
    (∀ (pre post : List (String × FileContent)) (name : String),
      (∀ p ∈ pre, ∃ d, p.2 = FileContent.exif d) →
      read_spatial_data_from_folder (pre ++ (name, FileContent.unreadable) :: post)
        = ([], Except.error PyError.oserror)) := by
  constructor
  · intro files h
    obtain ⟨log, hloop⟩ := scanLoop_ok files h
    refine ⟨log, ?_⟩
    have h1 : ((files.map fun p => (p.1, FileContent.exif p.2)).map
        fun p => read_exif_data p.2) = files.map fun p => Except.ok p.2 := by
      simp [read_exif_data]
    have h2 : sequenceExif (files.map fun p => Except.ok p.2)
        = Except.ok (files.map Prod.snd) := sequenceExif_ok_map Prod.snd files
    have h3 : (((files.map fun p => (p.1, FileContent.exif p.2)).map Prod.fst).zip
        (files.map Prod.snd)) = files := by
      have : ((files.map fun p => (p.1, FileContent.exif p.2)).map Prod.fst)
          = files.map Prod.fst := by simp
      rw [this, List.zip_map']
      simp
    simp only [read_spatial_data_from_folder, h1, h2, h3]
    exact hloop
  · intro pre post name h
    have h1 : ((pre ++ (name, FileContent.unreadable) :: post).map
        fun p => read_exif_data p.2)
        = (pre.map fun p => read_exif_data p.2) ++
          Except.error PyError.oserror :: (post.map fun p => read_exif_data p.2) := by
      simp [read_exif_data]
    have h2 : sequenceExif ((pre.map fun p => read_exif_data p.2) ++
        Except.error PyError.oserror :: (post.map fun p => read_exif_data p.2))
        = Except.error PyError.oserror := by
      apply sequenceExif_error
      intro x hx
      simp only [List.mem_map] at hx
      obtain ⟨p, hp, rfl⟩ := hx
      obtain ⟨d, hd⟩ := h p hp
      exact ⟨d, by rw [hd]; rfl⟩
    simp only [read_spatial_data_from_folder, h1, h2]

/-- Witness for C1 amended: a valid photo beside one with no GPS tags is
scanned with the GPS-less file skipped; a valid photo beside an unreadable
file aborts the scan. -/
theorem C1_witness :
    (∃ log,
      read_spatial_data_from_folder [("a", .exif goodExif), ("c", .exif noGpsExif)]
        = (log, Except.ok ([(("a" : String), goodExif), ("c", noGpsExif)].filterMap recordOf))) ∧
    read_spatial_data_from_folder [("a", .exif goodExif), ("u", .unreadable)]
      = ([], Except.error PyError.oserror) :=
  ⟨C1_amended.1 [("a", goodExif), ("c", noGpsExif)] (by decide),
   C1_amended.2 [("a", .exif goodExif)] [] "u"
     (fun p hp => by
       rcases List.mem_singleton.mp hp with rfl
       exact ⟨goodExif, rfl⟩)⟩

/-- Normaliser success for any of the four valid hemisphere references. -/
theorem convert_valid_ref (coords : ℚ × ℚ × ℚ) (ref : String)
    (h : pyUpper ref = ['N'] ∨ pyUpper ref = ['S'] ∨
         pyUpper ref = ['E'] ∨ pyUpper ref = ['W']) :
    ∃ v, convert_coords_to_decimal coords ref = ([], Except.ok v) := by
  rcases h with h | h | h | h
  · have h1 : ¬(pyUpper ref = ['W'] ∨ pyUpper ref = ['S']) := by rw [h]; decide
    have h2 : pyUpper ref = ['E'] ∨ pyUpper ref = ['N'] := by rw [h]; decide
    exact ⟨1 * dmsSum coords, by
      unfold convert_coords_to_decimal; rw [if_neg h1, if_pos h2]⟩
  · exact ⟨(-1) * dmsSum coords, by
      unfold convert_coords_to_decimal; rw [if_pos (Or.inr h)]⟩
  · have h1 : ¬(pyUpper ref = ['W'] ∨ pyUpper ref = ['S']) := by rw [h]; decide
    have h2 : pyUpper ref = ['E'] ∨ pyUpper ref = ['N'] := by rw [h]; decide
    exact ⟨1 * dmsSum coords, by
      unfold convert_coords_to_decimal; rw [if_neg h1, if_pos h2]⟩
  · exact ⟨(-1) * dmsSum coords, by
      unfold convert_coords_to_decimal; rw [if_pos (Or.inl h)]⟩

/-- C8 counterexample: a photo with valid latitude, longitude and both
references but no `gps_altitude` tag.  The claim says a record is still
created with altitude absent; in fact the altitude access inside the same
`try` raises `KeyError`, the handler prints and re-raises, and the scanner
skips the file entirely — zero records. -/
theorem C8_counterexample :
    read_spatial_data_from_folder [("a", .exif noAltExif)]
      = (["Image does not contain spatial data or data is invalid."],
         Except.ok []) := by decide

/-- C8 amended: a photo with valid latitude/longitude and hemisphere
references but a missing `gps_altitude` field is skipped entirely — the
`KeyError` from the altitude access is caught, the diagnostic is printed, no
record is created, and the scan of the remaining files is unaffected.  A
record therefore requires latitude, longitude AND altitude to be present,
not just latitude/longitude. -/
theorem C8_amended (latT lonT : ℚ × ℚ × ℚ) (latR lonR : String)
    (ts : Option String) (name : String) (rest : List (String × FileContent))
    (hlat : pyUpper latR = ['N'] ∨ pyUpper latR = ['S'] ∨
            pyUpper latR = ['E'] ∨ pyUpper latR = ['W'])
    (hlon : pyUpper lonR = ['N'] ∨ pyUpper lonR = ['S'] ∨
            pyUpper lonR = ['E'] ∨ pyUpper lonR = ['W']) :
    (read_spatial_data_from_folder
        ((name, FileContent.exif
            { gps_latitude := some latT, gps_latitude_ref := some latR,
              gps_longitude := some lonT, gps_longitude_ref := some lonR,
              gps_altitude := none, datetime := ts }) :: rest)).2
      = (read_spatial_data_from_folder rest).2 ∧
    read_spatial_data_from_folder
        [(name, FileContent.exif
            { gps_latitude := some latT, gps_latitude_ref := some latR,
              gps_longitude := some lonT, gps_longitude_ref := some lonR,
              gps_altitude := none, datetime := ts })]
      = (["Image does not contain spatial data or data is invalid."],
         Except.ok []) := by
  obtain ⟨lv, hlv⟩ := convert_valid_ref latT latR hlat
  obtain ⟨nv, hnv⟩ := convert_valid_ref lonT lonR hlon
  set D : ExifData :=
    { gps_latitude := some latT, gps_latitude_ref := some latR,
      gps_longitude := some lonT, gps_longitude_ref := some lonR,
      gps_altitude := none, datetime := ts } with hD
  have hbody : coordBody D = ([], Except.error PyError.keyError) := by
    simp [hD, coordBody, logBind, noLog, getField, hlv, hnv]
  have hgd : get_decimal_coord_from_exif D
      = (["Image does not contain spatial data or data is invalid."],
         Except.error PyError.keyError) := by
    simp [get_decimal_coord_from_exif, hbody]
  have h0 : read_exif_data (FileContent.exif D) = Except.ok D := rfl
  constructor
  · simp only [read_spatial_data_from_folder, List.map_cons, h0, sequenceExif]
    cases hseq : sequenceExif (rest.map fun p => read_exif_data p.2) with
    | error e => rfl
    | ok exifs =>
      simp only [List.map_cons, List.zip_cons_cons, scanLoop, hgd]
      rcases hrest : scanLoop ((rest.map Prod.fst).zip exifs) with ⟨logR, r⟩
      rw [← List.zip_eq_zipWith, hrest]
      simp
  · simp only [read_spatial_data_from_folder, List.map_cons, List.map_nil, h0,
      sequenceExif, List.zip_cons_cons, List.zip_nil_right, scanLoop, hgd]
    simp

/-- Witness for C8 amended: the altitude-less photo is skipped while the
valid photo beside it still determines the scan result. -/
theorem C8_witness :
    (read_spatial_data_from_folder
        [("a", FileContent.exif noAltExif), ("b", FileContent.exif goodExif)]).2
      = (read_spatial_data_from_folder [("b", FileContent.exif goodExif)]).2 ∧
    read_spatial_data_from_folder [("a", FileContent.exif noAltExif)]
      = (["Image does not contain spatial data or data is invalid."],
         Except.ok []) :=
  C8_amended (1, 2, 3) (4, 5, 6) "N" "E" (some "2020:01:02 03:04:05") "a"
    [("b", FileContent.exif goodExif)] (by decide) (by decide)

/-- Timestamp-column parsing succeeds when every present raw timestamp
matches the format, preserving row count and the number of null
timestamps. -/
theorem parseRows_ok (records : List PhotoRecord)
    (h : ∀ r ∈ records, ∀ s, r.timestamp = some s → (parseTimestamp s).isSome = true) :
    ∃ rows, parseRows records = Except.ok rows ∧
      rows.length = records.length ∧
      rows.countP (fun r => r.timestamp.isNone)
        = records.countP (fun r => r.timestamp.isNone) := by
  induction records with
  | nil => exact ⟨[], rfl, rfl, rfl⟩
  | cons r rest ih =>
    obtain ⟨rows, hr, hl, hc⟩ := ih (fun q hq => h q (List.mem_cons_of_mem _ hq))
    cases ht : r.timestamp with
    | none =>
      refine ⟨{ latitude := r.latitude, longitude := r.longitude,
                altitude := r.altitude, filepath := r.filepath,
                timestamp := none } :: rows, ?_, ?_, ?_⟩
      · simp [parseRows, ht, hr]
      · simp [hl]
      · simp [List.countP_cons, hc, ht]
    | some s =>
      have hp := h r (List.mem_cons_self _ _) s ht
      obtain ⟨t, hts⟩ := Option.isSome_iff_exists.mp hp
      refine ⟨{ latitude := r.latitude, longitude := r.longitude,
                altitude := r.altitude, filepath := r.filepath,
                timestamp := some t } :: rows, ?_, ?_, ?_⟩
      · simp [parseRows, ht, hts, hr]
      · simp [hl]
      · simp [List.countP_cons, hc, ht]

/-- Inserting into the ascending list permutes a cons. -/
theorem insertAsc_perm (r : ParsedRow) (l : List ParsedRow) :
    List.Perm (insertAsc r l) (r :: l) := by
  induction l with
  | nil => exact List.Perm.refl _
  | cons x xs ih =>
    by_cases h : tsKey r ≤ tsKey x
    · simp [insertAsc, h]
    · simp only [insertAsc, if_neg h]
      exact (ih.cons x).trans (List.Perm.swap r x xs)

/-- The ascending sort is a permutation of its input. -/
theorem sortAsc_perm (l : List ParsedRow) : List.Perm (sortAsc l) l := by
  induction l with
  | nil => exact List.Perm.refl _
  | cons x xs ih => exact (insertAsc_perm x (sortAsc xs)).trans (ih.cons x)

/-- The full timestamp sort (non-null ascending, nulls last) is a
permutation of its input. -/
theorem sortByTimestamp_perm (rows : List ParsedRow) :
    List.Perm (sortByTimestamp rows) rows := by
  refine ((sortAsc_perm _).append (List.Perm.refl _)).trans ?_
  exact List.filter_append_perm _ rows

/-- Inversion for a successful table build: the record set was non-empty,
the timestamp column parsed, and the rows are the sorted parsed rows. -/
theorem build_table_ok (records : List PhotoRecord) (rows : List ParsedRow)
    (h : build_table records = Except.ok rows) :
    records ≠ [] ∧ ∃ parsed, parseRows records = Except.ok parsed ∧
      rows = sortByTimestamp parsed := by
  by_cases he : records.isEmpty
  · simp [build_table, he] at h
  · cases hp : parseRows records with
    | error e => simp [build_table, he, hp] at h
    | ok parsed =>
      simp only [build_table, if_neg he, hp] at h
      refine ⟨by simpa using he, parsed, rfl, ?_⟩
      cases h; rfl

/-- C3 counterexample: first, a folder whose photos all have valid GPS but
where one raw timestamp uses dashes — `pd.to_datetime` with the exact format
raises `ValueError` (default errors policy) and the whole pipeline aborts,
instead of keeping the row with a null timestamp.  Second, for k = 0 photos
the Builder does not produce 0 records: the empty transposed frame has no
timestamp column and the build raises `AttributeError`. -/
theorem C3_counterexample :
    (generate_map [("a", .exif badTsExif), ("b", .exif goodExif)]).2
      = Except.error PyError.valueError ∧
    build_table [] = Except.error PyError.attributeError := by
  constructor
  · decide
  · decide

/-- C3 amended: a row whose raw timestamp is absent is kept with a null
timestamp; a present timestamp that fails the exact format aborts the
pipeline.  Hence for a non-empty scanner output of k records whose present
timestamps are all well-formed, the Builder produces exactly k rows, of
which exactly the rows for the j timestamp-less records carry a null
timestamp. -/
theorem C3_amended (files : List (String × FileContent)) (log : List String)
    (records : List PhotoRecord)
    (_hscan : read_spatial_data_from_folder files = (log, Except.ok records))
    (hne : records ≠ [])
    (hts : ∀ r ∈ records, ∀ s, r.timestamp = some s →
        (parseTimestamp s).isSome = true) :
    ∃ rows, build_table records = Except.ok rows ∧
      rows.length = records.length ∧
      rows.countP (fun r => r.timestamp.isNone)
        = records.countP (fun r => r.timestamp.isNone) := by
  obtain ⟨parsed, hp, hl, hc⟩ := parseRows_ok records hts
  have he : records.isEmpty = false := by simpa using hne
  refine ⟨sortByTimestamp parsed, ?_, ?_, ?_⟩
  · simp [build_table, he, hp]
  · rw [(sortByTimestamp_perm parsed).length_eq, hl]
  · rw [(sortByTimestamp_perm parsed).countP_eq, hc]

/-- Witness for C3 amended: a two-photo scan (one photo lacking datetime)
builds two rows with exactly one null timestamp. -/
theorem C3_witness :
    ∃ rows, build_table
        [{ latitude := 1 * dmsSum (1, 2, 3), longitude := 1 * dmsSum (4, 5, 6),
           altitude := 7, filepath := "a",
           timestamp := some "2020:01:02 03:04:05" },
         { latitude := 1 * dmsSum (1, 2, 3), longitude := 1 * dmsSum (4, 5, 6),
           altitude := 7, filepath := "n", timestamp := none }]
      = Except.ok rows ∧
      rows.length = 2 ∧
      rows.countP (fun r => r.timestamp.isNone) = 1 :=
  C3_amended [("a", .exif goodExif), ("n", .exif noTsExif)]
    ["Photo n does not contain datetime information."] _
    (by rfl)
    (by simp)
    (by
      intro r hr s hs
      simp only [List.mem_cons, List.not_mem_nil, or_false] at hr
      rcases hr with rfl | rfl
      · have hseq : s = "2020:01:02 03:04:05" := by simpa using hs.symm
        subst hseq; decide
      · simp at hs)

/-- Insertion keeps the rows pairwise ascending in timestamp key. -/
theorem pairwise_insertAsc (r : ParsedRow) (l : List ParsedRow)
    (h : l.Pairwise fun a b => tsKey a ≤ tsKey b) :
    (insertAsc r l).Pairwise fun a b => tsKey a ≤ tsKey b := by
  induction l with
  | nil => simp [insertAsc]
  | cons x xs ih =>
    rcases List.pairwise_cons.mp h with ⟨hx, hxs⟩
    by_cases hc : tsKey r ≤ tsKey x
    · simp only [insertAsc, if_pos hc]
      refine List.pairwise_cons.mpr ⟨?_, h⟩
      intro b hb
      rcases List.mem_cons.mp hb with rfl | hb
      · exact hc
      · exact le_trans hc (hx b hb)
    · simp only [insertAsc, if_neg hc]
      refine List.pairwise_cons.mpr ⟨?_, ih hxs⟩
      intro b hb
      have hmem := (insertAsc_perm r xs).mem_iff.mp hb
      rcases List.mem_cons.mp hmem with rfl | hb2
      · exact le_of_not_le hc
      · exact hx b hb2

/-- The ascending sort produces pairwise ascending timestamp keys. -/
theorem pairwise_sortAsc (l : List ParsedRow) :
    (sortAsc l).Pairwise fun a b => tsKey a ≤ tsKey b := by
  induction l with
  | nil => simp [sortAsc]
  | cons x xs ih => exact pairwise_insertAsc x (sortAsc xs) ih

/-- On rows that all carry a timestamp, collecting the timestamps is just
mapping the sort key. -/
theorem filterMap_timestamp_eq_map (l : List ParsedRow)
    (h : ∀ r ∈ l, r.timestamp.isSome = true) :
    l.filterMap ParsedRow.timestamp = l.map tsKey := by
  induction l with
  | nil => rfl
  | cons x xs ih =>
    have hx := h x (List.mem_cons_self _ _)
    obtain ⟨t, ht⟩ := Option.isSome_iff_exists.mp hx
    have : tsKey x = t := by simp [tsKey, ht]
    simp [List.filterMap_cons, ht, this,
      ih (fun q hq => h q (List.mem_cons_of_mem _ hq))]

/-- C6: after the Builder sorts, the non-null timestamps are pairwise
non-decreasing over the whole table, and the rows split as a block of
non-null-timestamp rows followed by the block of all null-timestamp rows —
the `na_position="last"` placement, identical on every run since the build
is a pure function of the record set. -/
theorem C6_sorted (records : List PhotoRecord) (rows : List ParsedRow)
    (h : build_table records = Except.ok rows) :
    List.Pairwise (· ≤ ·) (rows.filterMap ParsedRow.timestamp) ∧
    ∃ a b, rows = a ++ b ∧ (∀ r ∈ a, r.timestamp.isSome = true) ∧
      (∀ r ∈ b, r.timestamp = none) := by
  obtain ⟨-, parsed, hp, hrows⟩ := build_table_ok records rows h
  subst hrows
  have hsome : ∀ r ∈ sortAsc (parsed.filter fun r => r.timestamp.isSome),
      r.timestamp.isSome = true := by
    intro r hr
    have := (sortAsc_perm _).mem_iff.mp hr
    exact (List.mem_filter.mp this).2
  have hnone : ∀ r ∈ parsed.filter (fun r => !r.timestamp.isSome),
      r.timestamp = none := by
    intro r hr
    have := (List.mem_filter.mp hr).2
    simpa [Option.not_isSome_iff_eq_none] using this
  constructor
  · rw [sortByTimestamp, List.filterMap_append]
    have hb : (parsed.filter fun r => !r.timestamp.isSome).filterMap
        ParsedRow.timestamp = [] := by
      rw [List.filterMap_eq_nil_iff]
      exact hnone
    rw [hb, List.append_nil, filterMap_timestamp_eq_map _ hsome]
    exact List.pairwise_map.mpr (pairwise_sortAsc _)
  · exact ⟨_, _, rfl, hsome, hnone⟩

/-- Witness for C6 on a three-record set with one null timestamp and two
out-of-order timestamps. -/
theorem C6_witness :
    List.Pairwise (· ≤ ·)
      ((sortByTimestamp
        [{ latitude := 5, longitude := 6, altitude := 0, filepath := "x",
           timestamp := some 20220101000000 },
         { latitude := 1, longitude := 2, altitude := 0, filepath := "y",
           timestamp := none },
         { latitude := 3, longitude := 4, altitude := 0, filepath := "z",
           timestamp := some 20200101000000 }]).filterMap ParsedRow.timestamp) ∧
    ∃ a b, sortByTimestamp
        [{ latitude := 5, longitude := 6, altitude := 0, filepath := "x",
           timestamp := some 20220101000000 },
         { latitude := 1, longitude := 2, altitude := 0, filepath := "y",
           timestamp := none },
         { latitude := 3, longitude := 4, altitude := 0, filepath := "z",
           timestamp := some 20200101000000 }] = a ++ b ∧
      (∀ r ∈ a, r.timestamp.isSome = true) ∧ (∀ r ∈ b, r.timestamp = none) :=
  C6_sorted
    [{ latitude := 5, longitude := 6, altitude := 0, filepath := "x",
       timestamp := some "2022:01:01 00:00:00" },
     { latitude := 1, longitude := 2, altitude := 0, filepath := "y",
       timestamp := none },
     { latitude := 3, longitude := 4, altitude := 0, filepath := "z",
       timestamp := some "2020:01:01 00:00:00" }] _ (by rfl)

/-- The scalar sequence has one entry per row. -/
theorem linspace01_length (n : ℕ) : (linspace01 n).length = n := by
  rw [linspace01, List.length_map, List.length_range]

/-- Entry i of the scalar sequence is `i/(n-1)`. -/
theorem linspace01_getD (n i : ℕ) (hi : i < n) :
    (linspace01 n).getD i 0 = (i : ℚ) / ((n : ℚ) - 1) := by
  rw [linspace01, List.getD_eq_getElem?_getD, List.getElem?_map,
    List.getElem?_range hi]
  rfl

/-- With matching lengths, the markers carry exactly the given scalars. -/
theorem mkMarkers_map_colorScalar (rows : List ParsedRow) (scalars : List ℚ)
    (h : rows.length = scalars.length) :
    (mkMarkers rows scalars).map Marker.colorScalar = scalars := by
  induction rows generalizing scalars with
  | nil => cases scalars with
    | nil => rfl
    | cons c cs => simp at h
  | cons r rs ih =>
    cases scalars with
    | nil => simp at h
    | cons c cs =>
      simp only [mkMarkers, List.zipWith_cons_cons, List.map_cons]
      rw [List.cons.injEq]
      exact ⟨rfl, ih cs (by simpa using h)⟩

/-- With matching lengths, marker latitudes are the row latitudes. -/
theorem mkMarkers_map_lat (rows : List ParsedRow) (scalars : List ℚ)
    (h : rows.length = scalars.length) :
    (mkMarkers rows scalars).map Marker.lat = rows.map ParsedRow.latitude := by
  induction rows generalizing scalars with
  | nil => rfl
  | cons r rs ih =>
    cases scalars with
    | nil => simp at h
    | cons c cs =>
      simp only [mkMarkers, List.zipWith_cons_cons, List.map_cons]
      rw [List.cons.injEq]
      exact ⟨rfl, ih cs (by simpa using h)⟩

/-- With matching lengths, marker longitudes are the row longitudes. -/
theorem mkMarkers_map_lon (rows : List ParsedRow) (scalars : List ℚ)
    (h : rows.length = scalars.length) :
    (mkMarkers rows scalars).map Marker.lon = rows.map ParsedRow.longitude := by
  induction rows generalizing scalars with
  | nil => rfl
  | cons r rs ih =>
    cases scalars with
    | nil => simp at h
    | cons c cs =>
      simp only [mkMarkers, List.zipWith_cons_cons, List.map_cons]
      rw [List.cons.injEq]
      exact ⟨rfl, ih cs (by simpa using h)⟩

/-- The marker zip truncates at the shorter list. -/
theorem mkMarkers_length (rows : List ParsedRow) (scalars : List ℚ) :
    (mkMarkers rows scalars).length = min rows.length scalars.length := by
  simp [mkMarkers]

/-- Inversion for a successful `generate_map` run: the scan and the table
build succeeded and the output is markers zipped with the `linspace` scalars
plus the crossed fit-bounds corners. -/
theorem generate_map_ok_inv (files : List (String × FileContent))
    (log : List String) (out : MapOutput)
    (h : generate_map files = (log, Except.ok out)) :
    ∃ records rows,
      read_spatial_data_from_folder files = (log, Except.ok records) ∧
      build_table records = Except.ok rows ∧
      out = { markers := mkMarkers rows (linspace01 rows.length),
              bounds := ((listMax (rows.map ParsedRow.latitude) + 3,
                          listMin (rows.map ParsedRow.longitude) - 3),
                         (listMin (rows.map ParsedRow.latitude) - 3,
                          listMax (rows.map ParsedRow.longitude) + 3)) } := by
  rcases hs : read_spatial_data_from_folder files with ⟨log0, r⟩
  cases r with
  | error e => simp [generate_map, hs] at h
  | ok records =>
    cases hb : build_table records with
    | error e => simp [generate_map, hs, hb] at h
    | ok rows =>
      simp only [generate_map, hs, hb, Prod.mk.injEq, Except.ok.injEq] at h
      obtain ⟨rfl, rfl⟩ := h
      exact ⟨records, rows, rfl, hb, rfl⟩

/-- The output of a run over a folder with the single photo `goodExif`
(values written exactly as the pipeline computes them). -/
def oneGoodRun : MapOutput :=
  { markers := [{ lat := 1 * dmsSum (1, 2, 3), lon := 1 * dmsSum (4, 5, 6),
                  colorScalar := ((0 : ℕ) : ℚ) / (((1 : ℕ) : ℚ) - 1),
                  timestamp := some 20200102030405, filepath := "a" }],
    bounds := ((1 * dmsSum (1, 2, 3) + 3, 1 * dmsSum (4, 5, 6) - 3),
               (1 * dmsSum (1, 2, 3) - 3, 1 * dmsSum (4, 5, 6) + 3)) }

/-- C5 counterexample: for N = 0 photos the pipeline does not produce an
empty marker set — the empty scanner dict gives a transposed DataFrame with
no columns and the `df.timestamp` access raises `AttributeError`. -/
theorem C5_counterexample :
    generate_map [] = ([], Except.error PyError.attributeError) := by decide

/-- C5 amended: the colour scalars of an N-row table are
`np.linspace(0, 1, N)`: for N > 1, entry i equals i/(N-1), the sequence is
strictly increasing and uniformly spaced from 0 to 1 inclusive; for N = 1
the single scalar is 0; for N = 0 the sequence itself is empty but the
pipeline aborts with `AttributeError` before reaching it. -/
theorem C5_amended (n : ℕ) (files : List (String × FileContent))
    (log : List String) (out : MapOutput) :
    (linspace01 n).length = n ∧
    (∀ i, i < n → (linspace01 n).getD i 0 = (i : ℚ) / ((n : ℚ) - 1)) ∧
    (1 < n → List.Pairwise (· < ·) (linspace01 n)) ∧
    (1 < n → (linspace01 n).getD 0 0 = 0 ∧ (linspace01 n).getD (n - 1) 0 = 1) ∧
    (1 < n → ∀ i, i + 1 < n →
      (linspace01 n).getD (i + 1) 0 - (linspace01 n).getD i 0
        = 1 / ((n : ℚ) - 1)) ∧
    (n = 1 → linspace01 n = [0]) ∧
    linspace01 0 = [] ∧
    (generate_map files = (log, Except.ok out) →
      out.markers.map Marker.colorScalar = linspace01 out.markers.length) := by
  refine ⟨linspace01_length n, fun i hi => linspace01_getD n i hi, ?_, ?_, ?_, ?_, ?_, ?_⟩
  · intro hn
    have hpos : (0 : ℚ) < (n : ℚ) - 1 := by
      have h1 : (1 : ℚ) < (n : ℚ) := by exact_mod_cast hn
      linarith
    rw [linspace01]
    refine List.pairwise_map.mpr ((List.pairwise_lt_range n).imp ?_)
    intro a b hab
    exact (div_lt_div_iff_of_pos_right hpos).mpr (by exact_mod_cast hab)
  · intro hn
    have hpos : (0 : ℚ) < (n : ℚ) - 1 := by
      have h1 : (1 : ℚ) < (n : ℚ) := by exact_mod_cast hn
      linarith
    constructor
    · rw [linspace01_getD n 0 (by omega)]
      simp
    · rw [linspace01_getD n (n - 1) (by omega)]
      rw [Nat.cast_sub (by omega), Nat.cast_one]
      exact div_self (ne_of_gt hpos)
  · intro hn i hi
    rw [linspace01_getD n (i + 1) hi, linspace01_getD n i (by omega),
      div_sub_div_same]
    congr 1
    push_cast
    ring
  · rintro rfl
    have h1 : List.range 1 = [0] := rfl
    rw [linspace01, h1, List.map_cons, List.map_nil]
    norm_num
  · rfl
  · intro h
    obtain ⟨records, rows, hs, hb, rfl⟩ := generate_map_ok_inv files log out h
    have hlen : rows.length = (linspace01 rows.length).length :=
      (linspace01_length rows.length).symm
    have hm : (mkMarkers rows (linspace01 rows.length)).length = rows.length := by
      rw [mkMarkers_length, linspace01_length, Nat.min_self]
    simp only [hm]
    exact mkMarkers_map_colorScalar rows (linspace01 rows.length) hlen

/-- Witness for C5 amended at N = 3, N = 1, N = 0 and a concrete successful
one-photo run. -/
theorem C5_witness :
    List.Pairwise (· < ·) (linspace01 3) ∧
    (linspace01 3).getD 0 0 = 0 ∧
    (linspace01 3).getD (3 - 1) 0 = 1 ∧
    (linspace01 3).getD 1 0 = (1 : ℚ) / ((3 : ℚ) - 1) ∧
    linspace01 1 = [0] ∧
    linspace01 0 = [] ∧
    oneGoodRun.markers.map Marker.colorScalar
      = linspace01 oneGoodRun.markers.length :=
  ⟨(C5_amended 3 [] [] oneGoodRun).2.2.1 (by decide),
   ((C5_amended 3 [] [] oneGoodRun).2.2.2.1 (by decide)).1,
   ((C5_amended 3 [] [] oneGoodRun).2.2.2.1 (by decide)).2,
   (C5_amended 3 [] [] oneGoodRun).2.1 1 (by decide),
   (C5_amended 1 [] [] oneGoodRun).2.2.2.2.2.1 rfl,
   (C5_amended 0 [] [] oneGoodRun).2.2.2.2.2.2.1,
   (C5_amended 1 [("a", FileContent.exif goodExif)] [] oneGoodRun).2.2.2.2.2.2.2
     (by rfl)⟩

/-- C7: for every successful (hence non-empty) run, the corners passed to
`fit_bounds` are south-west `(max lat + 3, min lon - 3)` and north-east
`(min lat - 3, max lon + 3)`, computed over the plotted markers. -/
theorem C7_bounds (files : List (String × FileContent)) (log : List String)
    (out : MapOutput) (h : generate_map files = (log, Except.ok out)) :
    out.bounds = ((listMax (out.markers.map Marker.lat) + 3,
                   listMin (out.markers.map Marker.lon) - 3),
                  (listMin (out.markers.map Marker.lat) - 3,
                   listMax (out.markers.map Marker.lon) + 3)) := by
  obtain ⟨records, rows, hs, hb, rfl⟩ := generate_map_ok_inv files log out h
  have hlen : rows.length = (linspace01 rows.length).length :=
    (linspace01_length rows.length).symm
  simp only [mkMarkers_map_lat rows _ hlen, mkMarkers_map_lon rows _ hlen]

/-- Witness for C7 on the concrete one-photo run. -/
theorem C7_witness :
    oneGoodRun.bounds
      = ((listMax (oneGoodRun.markers.map Marker.lat) + 3,
          listMin (oneGoodRun.markers.map Marker.lon) - 3),
         (listMin (oneGoodRun.markers.map Marker.lat) - 3,
          listMax (oneGoodRun.markers.map Marker.lon) + 3)) :=
  C7_bounds [("a", FileContent.exif goodExif)] [] oneGoodRun (by rfl)
